import Mathlib

set_option linter.unusedVariables false

/-!
Verification of `flask_oauthlib/provider/oauth1.py` (OAuth1 provider for
Flask, 2013 snapshot) against its natural-language specification.

The Python module defines two classes:

* `OAuth1Provider` — Flask glue: decorators `authorize_handler`,
  `request_token_handler`, `access_token_handler`, `require_oauth`, and the
  helper `confirm_authorization_request`.
* `OAuth1RequestValidator` — an `oauthlib` `RequestValidator` subclass wired
  to three runtime-registered lookup functions (a client getter, an
  access-token getter and a request-token ("grant") getter) plus a Flask
  config dictionary.

The shallow embedding below translates each relevant method.  Python objects
returned by the lookup functions become `Option`-valued results (Python's
`None` is `none`); methods that mutate the `request` object return the new
request; methods whose body is `pass` are state-identities; Python name
resolution is made explicit where the source references identifiers that are
not bound in any enclosing scope (the module has several such slips), with
`NameError` / `AttributeError` modelled through an explicit error type.
External collaborators (the `oauthlib` server endpoints, `add_params_to_uri`,
`OAuth1Error.in_uri`, Flask's `redirect`) are modelled only as far as the
claims need them, and each such model is documented as external.
-/

namespace FlaskOauthlibOAuth1

/-- A client record as required by the `clientgetter` contract documented in
`OAuth1Provider.clientgetter` (source lines 88-112): `client_key`,
`client_secret`, `redirect_uris` and default realms. -/
structure Client where
  client_key : String
  client_secret : String
  redirect_uris : List String
  default_realms : List String
deriving DecidableEq, Repr

/-- A token record as used by the token/grant getters: the validator layer
reads only its `secret` (source lines 291-311); `key` and `client_key`
identify it. -/
structure TokenRec where
  key : String
  secret : String
  client_key : String
deriving DecidableEq, Repr

/-- The per-request mutable object handed to every validator method by the
oauthlib server.  `client` is the memoization slot written by
`get_client_secret` (source line 278); the remaining fields stand for the
rest of the request state, carried along to express frame conditions. -/
structure Request where
  client : Option Client
  uri : String
  params : List (String × String)
deriving DecidableEq, Repr

/-- Values stored in the Flask config dictionary under the
`OAUTH1_PROVIDER_*` keys: length bounds are pairs, signature-method lists
and realm lists are string lists, `ENFORCE_SSL` is a flag. -/
inductive ConfigVal
  | lenBounds (lo hi : Nat)
  | strList (xs : List String)
  | flag (b : Bool)
deriving DecidableEq, Repr

/-- Python `dict.get(key, default)` on the (finitely modelled) config
dictionary. -/
def dictGet (d : List (String × ConfigVal)) (k : String) (dflt : ConfigVal) :
    ConfigVal :=
  match d.find? (fun p => p.1 == k) with
  | some p => p.2
  | none => dflt

/-- The state of an `OAuth1RequestValidator` instance after `__init__`
(source lines 212-224): the three lookup functions and the config dict.
Per the source comments, `_tokengetter` is the access-token getter and
`_grantgetter` is the request-token getter. -/
structure OAuth1RequestValidator where
  clientgetterFn : String → Option Client
  tokengetterFn : String → String → Option TokenRec
  grantgetterFn : String → String → Option TokenRec
  configDict : List (String × ConfigVal)

namespace OAuth1RequestValidator

/-- `OAuth1RequestValidator.__init__` (source lines 212-224): stores the
three getters; `if not config: config = \x7b\x7d` replaces a missing (or empty,
hence falsy) config with the empty dict. -/
def init (cg : String → Option Client) (tg gg : String → String → Option TokenRec)
    (config : Option (List (String × ConfigVal))) : OAuth1RequestValidator :=
  { clientgetterFn := cg
    tokengetterFn := tg
    grantgetterFn := gg
    configDict := config.getD [] }

/-- Property `client_key_length` (source lines 233-238):
`config.get('OAUTH1_PROVIDER_KEY_LENGTH', (20, 30))`. -/
def client_key_length (v : OAuth1RequestValidator) : ConfigVal :=
  dictGet v.configDict "OAUTH1_PROVIDER_KEY_LENGTH" (ConfigVal.lenBounds 20 30)

/-- Property `reqeust_token_length` (sic, source lines 240-245): same key and
default as `client_key_length`. -/
def reqeust_token_length (v : OAuth1RequestValidator) : ConfigVal :=
  dictGet v.configDict "OAUTH1_PROVIDER_KEY_LENGTH" (ConfigVal.lenBounds 20 30)

/-- Property `access_token_length` (source lines 247-252). -/
def access_token_length (v : OAuth1RequestValidator) : ConfigVal :=
  dictGet v.configDict "OAUTH1_PROVIDER_KEY_LENGTH" (ConfigVal.lenBounds 20 30)

/-- Property `nonce_length` (source lines 254-259). -/
def nonce_length (v : OAuth1RequestValidator) : ConfigVal :=
  dictGet v.configDict "OAUTH1_PROVIDER_KEY_LENGTH" (ConfigVal.lenBounds 20 30)

/-- Property `verifier_length` (source lines 261-266). -/
def verifier_length (v : OAuth1RequestValidator) : ConfigVal :=
  dictGet v.configDict "OAUTH1_PROVIDER_KEY_LENGTH" (ConfigVal.lenBounds 20 30)

/-- `get_client_secret` (source lines 276-281).  Python:
`if not request.client: request.client = self._clientgetter(client_key=client_key)`
then `if request.client: return request.client.client_secret` else `return ''`.
The request mutation is made explicit by returning the updated request next
to the secret.  (A client object is truthy, so `not request.client` holds
exactly when the slot is unset.) -/
def get_client_secret (v : OAuth1RequestValidator) (client_key : String)
    (req : Request) : String × Request :=
  let req' :=
    if req.client.isNone then { req with client := v.clientgetterFn client_key }
    else req
  match req'.client with
  | some c => (c.client_secret, req')
  | none => ("", req')

/-- `get_request_token_secret` (source lines 291-300): looks the request token
up through `_grantgetter` and returns `tok.secret`, or `''` when the getter
returned `None`. -/
def get_request_token_secret (v : OAuth1RequestValidator)
    (client_key token : String) (req : Request) : String :=
  match v.grantgetterFn client_key token with
  | some tok => tok.secret
  | none => ""

/-- `get_access_token_secret` (source lines 302-311): like
`get_request_token_secret` but through `_tokengetter`. -/
def get_access_token_secret (v : OAuth1RequestValidator)
    (client_key token : String) (req : Request) : String :=
  match v.tokengetterFn client_key token with
  | some tok => tok.secret
  | none => ""

/-- `validate_client_key` (source lines 320-325): `True` exactly when the
client getter finds a client. -/
def validate_client_key (v : OAuth1RequestValidator) (client_key : String)
    (req : Request) : Bool :=
  (v.clientgetterFn client_key).isSome

/-- `validate_request_token` (source lines 327-336): `True` exactly when the
grant getter finds the request token. -/
def validate_request_token (v : OAuth1RequestValidator)
    (client_key token : String) (req : Request) : Bool :=
  (v.grantgetterFn client_key token).isSome

/-- `validate_access_token` (source lines 338-347): `True` exactly when the
token getter finds the access token. -/
def validate_access_token (v : OAuth1RequestValidator)
    (client_key token : String) (req : Request) : Bool :=
  (v.tokengetterFn client_key token).isSome

/-- `validate_timestamp_and_nonce` (source lines 349-353).  The body is a
`# TODO` comment followed by `return True`: it accepts every
client/timestamp/nonce combination, keeps no record of what it has seen, and
never inspects any of its arguments. -/
def validate_timestamp_and_nonce (v : OAuth1RequestValidator)
    (client_key : String) (timestamp : Nat) (nonce : String) (req : Request)
    (request_token access_token : Option String) : Bool :=
  true

/-- `validate_redirect_uri` (source lines 355-362): `False` when the client is
unknown; `True` when the client registered no redirect URIs and none was
supplied; otherwise membership of the supplied URI in the registered list
(`None in client.redirect_uris` is `False` for a list of strings). -/
def validate_redirect_uri (v : OAuth1RequestValidator) (client_key : String)
    (redirect_uri : Option String) (req : Request) : Bool :=
  match v.clientgetterFn client_key with
  | none => false
  | some client =>
    if client.redirect_uris.isEmpty && redirect_uri.isNone then true
    else
      match redirect_uri with
      | some uri => client.redirect_uris.contains uri
      | none => false

/-- `validate_verifier` (source lines 375-378).  The body is a `# TODO`
comment followed by `return True`: any verifier is accepted for any token,
with no comparison against a stored verifier. -/
def validate_verifier (v : OAuth1RequestValidator)
    (client_key token verifier : String) (req : Request) : Bool :=
  true

/-- `verify_request_token` (source lines 380-383): `# TODO`, `return True`. -/
def verify_request_token (v : OAuth1RequestValidator) (token : String)
    (req : Request) : Bool :=
  true

/-- `verify_realms` (source lines 385-388): `# TODO`, `return True`. -/
def verify_realms (v : OAuth1RequestValidator) (token : String)
    (realms : List String) (req : Request) : Bool :=
  true

end OAuth1RequestValidator

/-- The persistent store the save-callbacks are supposed to write to: the
access tokens and request tokens persisted so far.  It is the state threaded
through the (void, side-effecting) Python save methods. -/
structure Store where
  request_tokens : List TokenRec
  access_tokens : List TokenRec
  verifiers : List (String × String)
deriving DecidableEq, Repr

namespace OAuth1RequestValidator

/-- `save_access_token` (source lines 390-391): the body is `pass` — nothing
is persisted, so as a state transformer it is the identity on the store. -/
def save_access_token (v : OAuth1RequestValidator) (token : TokenRec)
    (req : Request) (store : Store) : Store :=
  store

/-- `save_request_token` (source lines 393-394): body `pass`, identity on the
store. -/
def save_request_token (v : OAuth1RequestValidator) (token : TokenRec)
    (req : Request) (store : Store) : Store :=
  store

end OAuth1RequestValidator

/-- Python runtime errors the module can raise when it evaluates an
identifier or attribute that is not bound anywhere. -/
inductive PyErr
  | nameError (n : String)
  | attributeError (n : String)
deriving DecidableEq, Repr

/-- The names bound at module scope of `flask_oauthlib/provider/oauth1.py`
(source lines 11-24): the imports, the `SIGNATURE_METHODS` constant and the
two class names.  Neither `scopes`, nor `abort`, nor `realm` is among them,
and none of the three is a Python builtin either. -/
def oauth1_module_names : List String :=
  ["wraps", "cached_property", "request", "redirect", "make_response",
   "RequestValidator", "Server", "SIGNATURE_HMAC", "SIGNATURE_RSA",
   "to_unicode", "add_params_to_uri", "OAuth1Error", "log",
   "_extract_params", "SIGNATURE_METHODS", "OAuth1Provider",
   "OAuth1RequestValidator", "__all__"]

/-- The names visible inside `decorated` in `require_oauth` (source lines
194-208): its own parameters and locals (`args`, `kwargs`, `server`, `uri`,
`http_method`, `body`, `headers`), the closure of `wrapper` (`f`) and of
`require_oauth` (`self`, `realms`, `kwargs`), and the module scope. -/
def require_oauth_scope : List String :=
  ["args", "kwargs", "server", "uri", "http_method", "body", "headers",
   "f", "self", "realms"] ++ oauth1_module_names

/-- The names visible inside `validate_realm` (source lines 369-373): its
parameters (`self`, `client_key`, `token`, `request`, `uri`,
`required_realm`) and the module scope. -/
def validate_realm_scope : List String :=
  ["self", "client_key", "token", "request", "uri", "required_realm"] ++
    oauth1_module_names

namespace OAuth1RequestValidator

/-- `validate_realm` (source lines 369-373).  Its first statement is
`log.debug('Validate realm %r for %r', realm, client_key)`, and `realm` is
bound in no enclosing scope, so calling the method raises `NameError`
before it can reach its `return True`; the embedding resolves the
identifier against the scope that the source actually provides. -/
def validate_realm (v : OAuth1RequestValidator) (client_key token : String)
    (req : Request) (uri : Option String)
    (required_realm : Option (List String)) : Except PyErr Bool :=
  if validate_realm_scope.contains "realm" then Except.ok true
  else Except.error (PyErr.nameError "realm")

end OAuth1RequestValidator

/-- An HTTP response produced by the Flask layer: a page built by
`make_response(body, status)` with copied headers, a `redirect(uri)`, or the
403 denial that `abort(403)` would produce. -/
inductive Response
  | page (body : String) (status : Nat) (headers : List (String × String))
  | redirectTo (uri : String)
  | denial (status : Nat)
deriving DecidableEq, Repr

/-- Model of the external helper `oauthlib.common.add_params_to_uri`: append
the given parameters to the URI's query string. -/
def add_params_to_uri (uri : String) (params : List (String × String)) :
    String :=
  uri ++ "?" ++ String.intercalate "&" (params.map (fun p => p.1 ++ "=" ++ p.2))

/-- Model of the external `oauthlib.oauth1.rfc5849.errors.OAuth1Error`: the
part the handlers use is its error code. -/
structure OAuth1Error where
  error : String
deriving DecidableEq, Repr

/-- Model of the external `OAuth1Error.in_uri`: attach the error parameter to
the redirect target.  The handlers pass
`request.values.get('redirect_uri', None)` here; the claims under proof only
concern the case where a redirect URI was supplied, so the absent case is
represented by the empty URI. -/
def OAuth1Error.in_uri (e : OAuth1Error) (redirect_uri : Option String) :
    String :=
  add_params_to_uri (redirect_uri.getD "") [("error", e.error)]

/-- The outcome of one of the external oauthlib server endpoint calls
(`create_request_token_response` / `create_authorization_response`): either
the `(uri, headers, body, status)` tuple the source unpacks, or a raised
`OAuth1Error`. -/
def ServerOutcome : Type :=
  Except OAuth1Error (String × List (String × String) × String × Nat)

/-- The body of `decorated` in `request_token_handler` (source lines
164-184): run the server's `create_request_token_response`; on success
unpack `(uri, headers, body, status)` into `make_response(body, status)`
with the headers copied over; on `OAuth1Error`, redirect to
`e.in_uri(request.values.get('redirect_uri', None))`.  The endpoint call is
external, so its outcome is a parameter. -/
def request_token_decorated (outcome : ServerOutcome)
    (redirect_uri : Option String) : Response :=
  match outcome with
  | Except.ok (_, headers, body, status) => Response.page body status headers
  | Except.error e => Response.redirectTo (e.in_uri redirect_uri)

/-- `confirm_authorization_request` (source lines 147-162): run the server's
`create_authorization_response`; on success `redirect(ret[0])`; on
`OAuth1Error`, redirect to `e.in_uri(request.values.get('redirect_uri',
None))`. -/
def confirm_authorization_request (outcome : ServerOutcome)
    (redirect_uri : Option String) : Response :=
  match outcome with
  | Except.ok ret => Response.redirectTo ret.1
  | Except.error e => Response.redirectTo (e.in_uri redirect_uri)

/-- The body of `decorated` in `require_oauth` (source lines 194-208).  The
source calls `server.verify_request(uri, http_method, body, headers,
scopes)` and, when invalid, `return abort(403)`; it resolves the
identifiers `scopes` and `abort` against the scope the source actually
binds (`require_oauth_scope`).  The external `verify_request` outcome is the
`(valid, req)` pair the source unpacks, and `handler` is the wrapped view
function `f`. -/
def require_oauth_decorated (verify_outcome : Bool × Request)
    (handler : Request → Response) : Except PyErr Response :=
  if require_oauth_scope.contains "scopes" then
    let (valid, req) := verify_outcome
    if !valid then
      if require_oauth_scope.contains "abort" then
        Except.ok (Response.denial 403)
      else Except.error (PyErr.nameError "abort")
    else Except.ok (handler req)
  else Except.error (PyErr.nameError "scopes")

/-- The instance attributes of an `OAuth1Provider` object that the denial
branch of `authorize_handler` reads.  Neither `__init__` nor `init_app` nor
the class body ever assigns `error_uri` (the only occurrence in the module
is the read at source line 141), so on an instance as the module constructs
it the slot is absent (`none`); `some` can only arise from an assignment
made outside this module. -/
structure OAuth1ProviderObj where
  error_uri : Option String
deriving DecidableEq, Repr

/-- The POST branch of `decorated` in `authorize_handler` (source lines
138-144): when the wrapped consent handler `f` returns a falsy result, build
`add_params_to_uri(self.error_uri, [('error', 'denied')])` — an attribute
read that raises `AttributeError` when `error_uri` was never assigned — and
redirect to it; otherwise fall through to
`self.confirm_authorization_request()`.  The store is threaded to record
that the denial branch performs no persistence call at all. -/
def authorize_post (p : OAuth1ProviderObj) (handlerResult : Bool)
    (confirm : Store → Response × Store) (store : Store) :
    Except PyErr (Response × Store) :=
  if !handlerResult then
    match p.error_uri with
    | none => Except.error (PyErr.attributeError "error_uri")
    | some u =>
      Except.ok (Response.redirectTo (add_params_to_uri u [("error", "denied")]),
        store)
  else Except.ok (confirm store)

/-- The access-token exchange of spec transition 5, as driven by the external
oauthlib server endpoint: the repository-side checks are
`validate_client_key`, `validate_request_token` (the request token being
exchanged) and `validate_verifier`; when all pass, the freshly generated
access token `fresh` is handed to `save_access_token` for persistence and
returned.  Everything the repository contributes — the three checks and the
persistence — is this file's translation of the source methods. -/
def exchangeAccessToken (v : OAuth1RequestValidator) (store : Store)
    (client_key token verifier : String) (req : Request) (fresh : TokenRec) :
    Option TokenRec × Store :=
  if v.validate_client_key client_key req &&
      v.validate_request_token client_key token req &&
      v.validate_verifier client_key token verifier req then
    (some fresh, v.save_access_token fresh req store)
  else
    (none, store)

/-- Concrete fixture: the registered client of spec scenario 1, key `abc`,
secret `xyz`. -/
def sampleClient : Client :=
  { client_key := "abc"
    client_secret := "xyz"
    redirect_uris := ["http://client.example/cb"]
    default_realms := ["email"] }

/-- Concrete fixture: a client that registered no redirect URIs. -/
def bareClient : Client :=
  { client_key := "bare"
    client_secret := "s2"
    redirect_uris := []
    default_realms := [] }

/-- Concrete fixture: the request token `tok1`/`sek1` of spec scenario 1. -/
def sampleReqTok : TokenRec :=
  { key := "tok1", secret := "sek1", client_key := "abc" }

/-- Concrete fixture: the access token `tok2`/`sek2` of spec scenario 3. -/
def sampleAccTok : TokenRec :=
  { key := "tok2", secret := "sek2", client_key := "abc" }

/-- Concrete fixture: a validator whose getters know `sampleClient`,
`bareClient`, the request token `tok1` and the access token `tok2`, with an
empty config. -/
def sampleValidator : OAuth1RequestValidator :=
  { clientgetterFn := fun k =>
      if k = "abc" then some sampleClient
      else if k = "bare" then some bareClient
      else none
    tokengetterFn := fun k t =>
      if k = "abc" ∧ t = "tok2" then some sampleAccTok else none
    grantgetterFn := fun k t =>
      if k = "abc" ∧ t = "tok1" then some sampleReqTok else none
    configDict := [] }

/-- Concrete fixture: a store with nothing persisted. -/
def emptyStore : Store :=
  { request_tokens := [], access_tokens := [], verifiers := [] }

/-- Concrete fixture: an inbound request whose `client` slot is unset. -/
def blankRequest : Request :=
  { client := none, uri := "http://provider.example/request_token", params := [] }

/-- Concrete fixture: an inbound request whose `client` slot is already
populated. -/
def cachedRequest : Request :=
  { client := some sampleClient, uri := "http://provider.example/resource",
    params := [] }

end FlaskOauthlibOAuth1

namespace FlaskOauthlibOAuth1

/-- C8: for every configuration the verifier length policy coincides with the
client-key, request-token, access-token and nonce length policies (they all
read the single config key `OAUTH1_PROVIDER_KEY_LENGTH`), and a validator
constructed with no config resolves them all to the default bounds
`(20, 30)`. -/
theorem C8_length_policies_agree :
    (∀ v : OAuth1RequestValidator,
      v.verifier_length = v.client_key_length ∧
      v.reqeust_token_length = v.client_key_length ∧
      v.access_token_length = v.client_key_length ∧
      v.nonce_length = v.client_key_length) ∧
    (∀ (cg : String → Option Client) (tg gg : String → String → Option TokenRec),
      (OAuth1RequestValidator.init cg tg gg none).verifier_length =
        ConfigVal.lenBounds 20 30) := by
  constructor
  · intro v
    exact ⟨rfl, rfl, rfl, rfl⟩
  · intro cg tg gg
    rfl

/-- C1: the claim says a request token can be exchanged at most once, later
attempts failing with TokenAlreadyExchanged.  The code does the opposite:
`validate_verifier` and `verify_request_token` return `True` unconditionally
and `save_access_token` persists nothing, so the exchange leaves the store
unchanged and its outcome never depends on the store; concretely, after
`tok1`/`ver1` is exchanged once for `tok2`, exchanging the very same
`tok1`/`ver1` again on the resulting store succeeds a second time and yields
another access token. -/
theorem C1_repeated_exchange_succeeds :
    (∀ (v : OAuth1RequestValidator) (store : Store) (ck tok vf : String)
        (req : Request) (fresh : TokenRec),
      (exchangeAccessToken v store ck tok vf req fresh).2 = store ∧
      v.validate_verifier ck tok vf req = true ∧
      v.verify_request_token tok req = true) ∧
    ((exchangeAccessToken sampleValidator emptyStore "abc" "tok1" "ver1"
        blankRequest sampleAccTok).1 = some sampleAccTok ∧
     (exchangeAccessToken sampleValidator
        (exchangeAccessToken sampleValidator emptyStore "abc" "tok1" "ver1"
          blankRequest sampleAccTok).2
        "abc" "tok1" "ver1" blankRequest
        { key := "tok3", secret := "sek3", client_key := "abc" }).1 =
      some { key := "tok3", secret := "sek3", client_key := "abc" }) := by
  constructor
  · intro v store ck tok vf req fresh
    refine ⟨?_, rfl, rfl⟩
    unfold exchangeAccessToken
    split <;> rfl
  · exact ⟨by decide, by decide⟩

/-- C2: the claim says a repeated `(client_key, token, nonce, timestamp)`
tuple is rejected on its second presentation and that out-of-window
timestamps are rejected.  The code's `validate_timestamp_and_nonce` is a
`TODO` stub returning `True` for every input and keeping no record, so the
second presentation of the identical tuple is accepted exactly like the
first, and the far-out-of-window timestamp `0` is accepted as well. -/
theorem C2_nonce_validator_accepts_everything :
    (∀ (v : OAuth1RequestValidator) (ck : String) (ts : Nat) (n : String)
        (req : Request) (rt atk : Option String),
      v.validate_timestamp_and_nonce ck ts n req rt atk = true) ∧
    (sampleValidator.validate_timestamp_and_nonce "abc" 1370000000 "nonce1"
        blankRequest none none = true ∧
     sampleValidator.validate_timestamp_and_nonce "abc" 0 "nonce1"
        blankRequest none none = true) := by
  exact ⟨fun v ck ts n req rt atk => rfl, rfl, rfl⟩

/-- C3: the claim says the resource guard denies with a 403-equivalent and
skips the protected handler whenever the required realms are not covered.
The code never gets that far: `decorated` in `require_oauth` evaluates the
unbound identifier `scopes` when building the `verify_request` call, so for
every verification outcome — valid or not — and every handler it raises
`NameError` (and the handler is never invoked, the result being a constant
independent of it); `validate_realm` likewise raises `NameError` on its
unbound `realm`. -/
theorem C3_require_oauth_raises_name_error :
    (∀ (verify_outcome : Bool × Request) (handler : Request → Response),
      require_oauth_decorated verify_outcome handler =
        Except.error (PyErr.nameError "scopes")) ∧
    (∀ (v : OAuth1RequestValidator) (ck tok : String) (req : Request)
        (uri : Option String) (rr : Option (List String)),
      v.validate_realm ck tok req uri rr =
        Except.error (PyErr.nameError "realm")) := by
  exact ⟨fun o h => rfl, fun v ck tok req uri rr => rfl⟩

/-- C4: `validate_client_key`, `validate_request_token` and
`validate_access_token` are total boolean predicates on the embedding: when
the respective getter finds nothing they return `false`, when it finds an
entity they return `true`, and in no case do they raise. -/
theorem C4_validators_return_booleans :
    ∀ (v : OAuth1RequestValidator) (ck tok : String) (req : Request),
      (v.clientgetterFn ck = none → v.validate_client_key ck req = false) ∧
      (∀ c, v.clientgetterFn ck = some c →
        v.validate_client_key ck req = true) ∧
      (v.grantgetterFn ck tok = none →
        v.validate_request_token ck tok req = false) ∧
      (∀ t, v.grantgetterFn ck tok = some t →
        v.validate_request_token ck tok req = true) ∧
      (v.tokengetterFn ck tok = none →
        v.validate_access_token ck tok req = false) ∧
      (∀ t, v.tokengetterFn ck tok = some t →
        v.validate_access_token ck tok req = true) := by
  intro v ck tok req
  refine ⟨?_, ?_, ?_, ?_, ?_, ?_⟩
  · intro h; simp [OAuth1RequestValidator.validate_client_key, h]
  · intro c h; simp [OAuth1RequestValidator.validate_client_key, h]
  · intro h; simp [OAuth1RequestValidator.validate_request_token, h]
  · intro t h; simp [OAuth1RequestValidator.validate_request_token, h]
  · intro h; simp [OAuth1RequestValidator.validate_access_token, h]
  · intro t h; simp [OAuth1RequestValidator.validate_access_token, h]

/-- Witness for C4 at the concrete fixture: an unknown client key and an
unknown token validate to `false`, the known ones to `true`. -/
theorem C4_validators_return_booleans_witness :
    sampleValidator.validate_client_key "nope" blankRequest = false ∧
    sampleValidator.validate_client_key "abc" blankRequest = true ∧
    sampleValidator.validate_request_token "abc" "ghost" blankRequest = false ∧
    sampleValidator.validate_request_token "abc" "tok1" blankRequest = true ∧
    sampleValidator.validate_access_token "abc" "ghost" blankRequest = false ∧
    sampleValidator.validate_access_token "abc" "tok2" blankRequest = true :=
  ⟨(C4_validators_return_booleans sampleValidator "nope" "x" blankRequest).1
      (by decide),
   (C4_validators_return_booleans sampleValidator "abc" "x"
      blankRequest).2.1 sampleClient (by decide),
   (C4_validators_return_booleans sampleValidator "abc" "ghost"
      blankRequest).2.2.1 (by decide),
   (C4_validators_return_booleans sampleValidator "abc" "tok1"
      blankRequest).2.2.2.1 sampleReqTok (by decide),
   (C4_validators_return_booleans sampleValidator "abc" "ghost"
      blankRequest).2.2.2.2.1 (by decide),
   (C4_validators_return_booleans sampleValidator "abc" "tok2"
      blankRequest).2.2.2.2.2 sampleAccTok (by decide)⟩

/-- C5: `validate_redirect_uri` accepts exactly when the client exists and
either the supplied URI is among the client's registered redirect URIs, or
the client registered none and none was supplied. -/
theorem C5_validate_redirect_uri_characterisation :
    ∀ (v : OAuth1RequestValidator) (ck : String) (ru : Option String)
      (req : Request),
      v.validate_redirect_uri ck ru req = true ↔
        ∃ c, v.clientgetterFn ck = some c ∧
          ((c.redirect_uris = [] ∧ ru = none) ∨
           ∃ u, ru = some u ∧ u ∈ c.redirect_uris) := by
  intro v ck ru req
  unfold OAuth1RequestValidator.validate_redirect_uri
  cases hc : v.clientgetterFn ck with
  | none => simp
  | some c =>
    cases ru with
    | none => simp [List.isEmpty_iff]
    | some u => simp [List.isEmpty_iff]

/-- C6: in `request_token_handler` and `confirm_authorization_request` every
`OAuth1Error` raised by the server call is caught and turned into a redirect
carrying the `error` parameter; when the caller supplied a `redirect_uri`
the redirect targets it, and in every case the result is a redirect response
rather than a propagating protocol exception. -/
theorem C6_protocol_errors_become_redirects :
    ∀ (e : OAuth1Error) (u : String) (ru : Option String),
      request_token_decorated (Except.error e) (some u) =
        Response.redirectTo (add_params_to_uri u [("error", e.error)]) ∧
      confirm_authorization_request (Except.error e) (some u) =
        Response.redirectTo (add_params_to_uri u [("error", e.error)]) ∧
      (∃ target, request_token_decorated (Except.error e) ru =
        Response.redirectTo target) ∧
      (∃ target, confirm_authorization_request (Except.error e) ru =
        Response.redirectTo target) := by
  intro e u ru
  exact ⟨rfl, rfl, ⟨_, rfl⟩, ⟨_, rfl⟩⟩

/-- C7: the claim says a denied consent redirects to the configured error URI
with `error=denied` and issues no verifier.  On a provider as the module
constructs it the `error_uri` attribute is never assigned, so the denial
branch raises `AttributeError` instead of redirecting; only when the
attribute has been set externally does the promised redirect happen.  In
both cases the confirmation step is never invoked and the store — verifiers
included — is untouched, so no verifier is generated or bound. -/
theorem C7_denial_crashes_without_error_uri :
    (∀ (confirm : Store → Response × Store) (store : Store),
      authorize_post { error_uri := none } false confirm store =
        Except.error (PyErr.attributeError "error_uri")) ∧
    (∀ (u : String) (confirm : Store → Response × Store) (store : Store),
      authorize_post { error_uri := some u } false confirm store =
        Except.ok
          (Response.redirectTo (add_params_to_uri u [("error", "denied")]),
           store)) := by
  exact ⟨fun confirm store => rfl, fun u confirm store => rfl⟩

/-- C9: the three secret getters fall back to the empty string — never `None`
and never an exception — when the lookup finds nothing, and return the found
entity's secret otherwise (for `get_client_secret`, on a request whose
client slot is unset, so the lookup actually runs). -/
theorem C9_secret_getters_default_empty :
    ∀ (v : OAuth1RequestValidator) (ck tok : String) (req : Request),
      (req.client = none → v.clientgetterFn ck = none →
        (v.get_client_secret ck req).1 = "") ∧
      (∀ c, req.client = none → v.clientgetterFn ck = some c →
        (v.get_client_secret ck req).1 = c.client_secret) ∧
      (v.grantgetterFn ck tok = none →
        v.get_request_token_secret ck tok req = "") ∧
      (∀ t, v.grantgetterFn ck tok = some t →
        v.get_request_token_secret ck tok req = t.secret) ∧
      (v.tokengetterFn ck tok = none →
        v.get_access_token_secret ck tok req = "") ∧
      (∀ t, v.tokengetterFn ck tok = some t →
        v.get_access_token_secret ck tok req = t.secret) := by
  intro v ck tok req
  refine ⟨?_, ?_, ?_, ?_, ?_, ?_⟩
  · intro hr hg
    simp [OAuth1RequestValidator.get_client_secret, hr, hg]
  · intro c hr hg
    simp [OAuth1RequestValidator.get_client_secret, hr, hg]
  · intro h; simp [OAuth1RequestValidator.get_request_token_secret, h]
  · intro t h; simp [OAuth1RequestValidator.get_request_token_secret, h]
  · intro h; simp [OAuth1RequestValidator.get_access_token_secret, h]
  · intro t h; simp [OAuth1RequestValidator.get_access_token_secret, h]

/-- Witness for C9 at the concrete fixture: unknown lookups give `""`, known
lookups give the stored secrets. -/
theorem C9_secret_getters_default_empty_witness :
    (sampleValidator.get_client_secret "nope" blankRequest).1 = "" ∧
    (sampleValidator.get_client_secret "abc" blankRequest).1 = "xyz" ∧
    sampleValidator.get_request_token_secret "abc" "ghost" blankRequest = "" ∧
    sampleValidator.get_request_token_secret "abc" "tok1" blankRequest = "sek1" ∧
    sampleValidator.get_access_token_secret "abc" "ghost" blankRequest = "" ∧
    sampleValidator.get_access_token_secret "abc" "tok2" blankRequest = "sek2" :=
  ⟨(C9_secret_getters_default_empty sampleValidator "nope" "x"
      blankRequest).1 (by decide) (by decide),
   (C9_secret_getters_default_empty sampleValidator "abc" "x"
      blankRequest).2.1 sampleClient (by decide) (by decide),
   (C9_secret_getters_default_empty sampleValidator "abc" "ghost"
      blankRequest).2.2.1 (by decide),
   (C9_secret_getters_default_empty sampleValidator "abc" "tok1"
      blankRequest).2.2.2.1 sampleReqTok (by decide),
   (C9_secret_getters_default_empty sampleValidator "abc" "ghost"
      blankRequest).2.2.2.2.1 (by decide),
   (C9_secret_getters_default_empty sampleValidator "abc" "tok2"
      blankRequest).2.2.2.2.2 sampleAccTok (by decide)⟩

/-- C10: when the request's client slot is already populated,
`get_client_secret` returns the cached client's secret and the request
exactly as it was — the result is the same for every validator, so the
client getter is not consulted; when the slot is unset, the returned request
is the input request with only the client slot overwritten by the getter's
result, all other fields unchanged. -/
theorem C10_get_client_secret_memoizes :
    ∀ (v : OAuth1RequestValidator) (ck : String) (req : Request),
      (∀ c, req.client = some c →
        v.get_client_secret ck req = (c.client_secret, req)) ∧
      (req.client = none →
        (v.get_client_secret ck req).2 =
          { req with client := v.clientgetterFn ck }) := by
  intro v ck req
  constructor
  · intro c h
    simp [OAuth1RequestValidator.get_client_secret, h]
  · intro h
    cases req with
    | mk rc ru rp =>
      simp only at h
      subst h
      simp only [OAuth1RequestValidator.get_client_secret, Option.isNone_none,
        if_pos]
      cases hg : v.clientgetterFn ck <;> simp [hg]

/-- Witness for C10 at the concrete fixture: with the client cached, the call
returns the cached secret and the untouched request; with the slot unset,
the returned request is the input with only the client slot filled in. -/
theorem C10_get_client_secret_memoizes_witness :
    sampleValidator.get_client_secret "zzz" cachedRequest =
      ("xyz", cachedRequest) ∧
    (sampleValidator.get_client_secret "abc" blankRequest).2 =
      { blankRequest with client := sampleValidator.clientgetterFn "abc" } :=
  ⟨(C10_get_client_secret_memoizes sampleValidator "zzz" cachedRequest).1
      sampleClient (by decide),
   (C10_get_client_secret_memoizes sampleValidator "abc" blankRequest).2
      (by decide)⟩

end FlaskOauthlibOAuth1
